import Mathlib

set_option maxHeartbeats 1000000
set_option maxRecDepth 8000

/-!
Verification of the libpostal-rs safety layer.

This file embeds, as executable Lean definitions, the parts of the
libpostal-rs source that its specification talks about: the error taxonomy
(src/error.rs), the parsed-address data model and component fold
(src/parser.rs), the language code tables (src/types.rs), the data-file
availability and verification checks (src/data.rs), and the FFI adapter
with its one-time initialization gate (src/ffi.rs).  The opaque native
library and the filesystem are modelled as explicit oracle parameters, and
the native calls a run performs are collected in an explicit event list so
that call-counting properties can be stated.
-/

/-- Error taxonomy of the crate (src/error.rs, enum Error).  Each variant
carries its message string; the IoError source is modelled by its display
message. -/
inductive Error where
  | InitializationFailed (message : String)
  | DataError (message : String)
  | ParseError (message : String)
  | NormalizationError (message : String)
  | FfiError (message : String)
  | IoError (message : String)
  | NetworkError (message : String)
  deriving DecidableEq, Repr

/-- Owned label and value pair produced by converting native parser output
(src/ffi.rs, struct AddressComponent). -/
structure AddressComponent where
  label : String
  value : String
  deriving DecidableEq, Repr

/-- Structured parsed address (src/parser.rs, struct ParsedAddress): twenty
optional named slots plus the overflow list for unrecognized labels.  The
field defaults mirror the derived Default implementation. -/
structure ParsedAddress where
  house_number : Option String := none
  road : Option String := none
  unit : Option String := none
  level : Option String := none
  staircase : Option String := none
  entrance : Option String := none
  po_box : Option String := none
  postcode : Option String := none
  suburb : Option String := none
  city : Option String := none
  city_district : Option String := none
  island : Option String := none
  state : Option String := none
  state_district : Option String := none
  country_region : Option String := none
  country : Option String := none
  world_region : Option String := none
  category : Option String := none
  near : Option String := none
  toponym : Option String := none
  other : List String := []
  deriving DecidableEq, Repr

/-- One iteration of the component loop in ParsedAddress::from_components
(src/parser.rs lines 238 to 262): a match on the component label overwrites
the matching named slot, and any unrecognized label appends its value to the
other list. -/
def ParsedAddress.applyComponent (parsed : ParsedAddress) (component : AddressComponent) :
    ParsedAddress :=
  match component.label with
  | "house_number" => { parsed with house_number := some component.value }
  | "road" => { parsed with road := some component.value }
  | "unit" => { parsed with unit := some component.value }
  | "level" => { parsed with level := some component.value }
  | "staircase" => { parsed with staircase := some component.value }
  | "entrance" => { parsed with entrance := some component.value }
  | "po_box" => { parsed with po_box := some component.value }
  | "postcode" => { parsed with postcode := some component.value }
  | "suburb" => { parsed with suburb := some component.value }
  | "city" => { parsed with city := some component.value }
  | "city_district" => { parsed with city_district := some component.value }
  | "island" => { parsed with island := some component.value }
  | "state" => { parsed with state := some component.value }
  | "state_district" => { parsed with state_district := some component.value }
  | "country_region" => { parsed with country_region := some component.value }
  | "country" => { parsed with country := some component.value }
  | "world_region" => { parsed with world_region := some component.value }
  | "category" => { parsed with category := some component.value }
  | "near" => { parsed with near := some component.value }
  | "toponym" => { parsed with toponym := some component.value }
  | _ => { parsed with other := parsed.other ++ [component.value] }

/-- ParsedAddress::from_components (src/parser.rs): folds the component list
into the default record and wraps the result in Ok.  The Result error channel
of the source is mirrored by Except even though no branch produces an
error. -/
def ParsedAddress.from_components (components : List AddressComponent) :
    Except Error ParsedAddress :=
  Except.ok (components.foldl ParsedAddress.applyComponent {})

/-- ParsedAddress::is_empty (src/parser.rs lines 308 to 330): conjunction of
is_none over every named slot and emptiness of the other list. -/
def ParsedAddress.is_empty (p : ParsedAddress) : Bool :=
  p.house_number.isNone && p.road.isNone && p.unit.isNone && p.level.isNone
    && p.staircase.isNone && p.entrance.isNone && p.po_box.isNone && p.postcode.isNone
    && p.suburb.isNone && p.city.isNone && p.city_district.isNone && p.island.isNone
    && p.state.isNone && p.state_district.isNone && p.country_region.isNone
    && p.country.isNone && p.world_region.isNone && p.category.isNone
    && p.near.isNone && p.toponym.isNone && p.other.isEmpty

/-- The twenty labels the fold in from_components recognizes, in source
order. -/
def recognizedLabels : List String :=
  ["house_number", "road", "unit", "level", "staircase", "entrance", "po_box",
   "postcode", "suburb", "city", "city_district", "island", "state",
   "state_district", "country_region", "country", "world_region", "category",
   "near", "toponym"]

/-- Spec-side definition, following the words of spec.md section 3: the slot
for a label holds the value of the latest component carrying that label,
last write wins.  Searching the reversed list finds the most recent
occurrence first. -/
def specSlotValue (l : String) (components : List AddressComponent) : Option String :=
  (components.reverse.find? (fun c => c.label == l)).map (fun c => c.value)

/-- Spec-side definition, following the words of spec.md section 3: the
overflow list collects, in order, the values of the components whose label is
not recognized. -/
def specOverflow (components : List AddressComponent) : List String :=
  (components.filter (fun c => !(recognizedLabels.contains c.label))).map (fun c => c.value)

/-- First-some choice on options, used to state the fold lemmas. -/
def optOr (a b : Option String) : Option String :=
  match a with
  | some v => some v
  | none => b

/-- Conditional singleton option, used to state the fold lemmas. -/
def optIf (b : Bool) (v : String) : Option String :=
  if b then some v else none

theorem optOr_none (a : Option String) : optOr a none = a := by
  cases a <;> rfl

theorem optOr_if (a : Option String) (b : Bool) (v : String) (d : Option String) :
    optOr a (if b then some v else d) = optOr (optOr a (optIf b v)) d := by
  cases a <;> cases b <;> simp [optOr, optIf]

theorem applyComponent_eq (p : ParsedAddress) (c : AddressComponent) :
    p.applyComponent c =
      { house_number := if c.label == "house_number" then some c.value else p.house_number,
        road := if c.label == "road" then some c.value else p.road,
        unit := if c.label == "unit" then some c.value else p.unit,
        level := if c.label == "level" then some c.value else p.level,
        staircase := if c.label == "staircase" then some c.value else p.staircase,
        entrance := if c.label == "entrance" then some c.value else p.entrance,
        po_box := if c.label == "po_box" then some c.value else p.po_box,
        postcode := if c.label == "postcode" then some c.value else p.postcode,
        suburb := if c.label == "suburb" then some c.value else p.suburb,
        city := if c.label == "city" then some c.value else p.city,
        city_district := if c.label == "city_district" then some c.value else p.city_district,
        island := if c.label == "island" then some c.value else p.island,
        state := if c.label == "state" then some c.value else p.state,
        state_district := if c.label == "state_district" then some c.value else p.state_district,
        country_region := if c.label == "country_region" then some c.value else p.country_region,
        country := if c.label == "country" then some c.value else p.country,
        world_region := if c.label == "world_region" then some c.value else p.world_region,
        category := if c.label == "category" then some c.value else p.category,
        near := if c.label == "near" then some c.value else p.near,
        toponym := if c.label == "toponym" then some c.value else p.toponym,
        other := if recognizedLabels.contains c.label then p.other
          else p.other ++ [c.value] } := by
  unfold ParsedAddress.applyComponent
  split <;> simp_all [recognizedLabels]

theorem specSlotValue_cons (l : String) (c : AddressComponent) (cs : List AddressComponent) :
    specSlotValue l (c :: cs) =
      optOr (specSlotValue l cs) (optIf (c.label == l) c.value) := by
  unfold specSlotValue
  rw [List.reverse_cons, List.find?_append]
  cases h : cs.reverse.find? (fun x => x.label == l) <;>
    cases hc : c.label == l <;> simp [optOr, optIf, List.find?, hc]

theorem specOverflow_cons (c : AddressComponent) (cs : List AddressComponent) :
    specOverflow (c :: cs) =
      (if recognizedLabels.contains c.label then [] else [c.value]) ++ specOverflow cs := by
  unfold specOverflow
  rw [List.filter_cons]
  by_cases h : c.label ∈ recognizedLabels <;> simp [h]

theorem foldl_applyComponent (components : List AddressComponent) :
    ∀ p : ParsedAddress,
      components.foldl ParsedAddress.applyComponent p =
        { house_number := optOr (specSlotValue ("house_number") components) p.house_number,
          road := optOr (specSlotValue ("road") components) p.road,
          unit := optOr (specSlotValue ("unit") components) p.unit,
          level := optOr (specSlotValue ("level") components) p.level,
          staircase := optOr (specSlotValue ("staircase") components) p.staircase,
          entrance := optOr (specSlotValue ("entrance") components) p.entrance,
          po_box := optOr (specSlotValue ("po_box") components) p.po_box,
          postcode := optOr (specSlotValue ("postcode") components) p.postcode,
          suburb := optOr (specSlotValue ("suburb") components) p.suburb,
          city := optOr (specSlotValue ("city") components) p.city,
          city_district := optOr (specSlotValue ("city_district") components) p.city_district,
          island := optOr (specSlotValue ("island") components) p.island,
          state := optOr (specSlotValue ("state") components) p.state,
          state_district := optOr (specSlotValue ("state_district") components) p.state_district,
          country_region := optOr (specSlotValue ("country_region") components) p.country_region,
          country := optOr (specSlotValue ("country") components) p.country,
          world_region := optOr (specSlotValue ("world_region") components) p.world_region,
          category := optOr (specSlotValue ("category") components) p.category,
          near := optOr (specSlotValue ("near") components) p.near,
          toponym := optOr (specSlotValue ("toponym") components) p.toponym,
          other := p.other ++ specOverflow components } := by
  induction components with
  | nil =>
    intro p
    simp [specSlotValue, specOverflow, optOr]
  | cons c cs ih =>
    intro p
    rw [List.foldl_cons, ih, applyComponent_eq]
    simp only [specSlotValue_cons, specOverflow_cons, optOr_if]
    by_cases hr : c.label ∈ recognizedLabels <;> simp [hr]

/-- C6: folding a component list into a ParsedAddress assigns each recognized
label to its named slot with last-write-wins semantics, appends unrecognized
labels in order to the overflow list, and the synthetic example from the spec
evaluates as stated. -/
theorem from_components_fold_spec :
    (∀ components : List AddressComponent,
      ParsedAddress.from_components components =
        Except.ok
          { house_number := specSlotValue ("house_number") components,
            road := specSlotValue ("road") components,
            unit := specSlotValue ("unit") components,
            level := specSlotValue ("level") components,
            staircase := specSlotValue ("staircase") components,
            entrance := specSlotValue ("entrance") components,
            po_box := specSlotValue ("po_box") components,
            postcode := specSlotValue ("postcode") components,
            suburb := specSlotValue ("suburb") components,
            city := specSlotValue ("city") components,
            city_district := specSlotValue ("city_district") components,
            island := specSlotValue ("island") components,
            state := specSlotValue ("state") components,
            state_district := specSlotValue ("state_district") components,
            country_region := specSlotValue ("country_region") components,
            country := specSlotValue ("country") components,
            world_region := specSlotValue ("world_region") components,
            category := specSlotValue ("category") components,
            near := specSlotValue ("near") components,
            toponym := specSlotValue ("toponym") components,
            other := specOverflow components })
    ∧ ParsedAddress.from_components
        [⟨"house_number", "123"⟩, ⟨"road", "Main St"⟩, ⟨"unknown_label", "X"⟩] =
      Except.ok { house_number := some ("123"), road := some ("Main St"),
                  other := [("X")] } := by
  constructor
  · intro components
    unfold ParsedAddress.from_components
    rw [foldl_applyComponent]
    simp [optOr_none]
  · rfl

/-- C10: ParsedAddress::from_components is total over its declared error
channel; it returns Ok on every finite component list. -/
theorem from_components_total (components : List AddressComponent) :
    ∃ p, ParsedAddress.from_components components = Except.ok p :=
  ⟨components.foldl ParsedAddress.applyComponent {}, rfl⟩

/-- C8: is_empty returns true exactly when every named slot is None and the
overflow list is empty. -/
theorem is_empty_iff (p : ParsedAddress) :
    p.is_empty = true ↔
      (p.house_number = none ∧ p.road = none ∧ p.unit = none ∧ p.level = none
        ∧ p.staircase = none ∧ p.entrance = none ∧ p.po_box = none
        ∧ p.postcode = none ∧ p.suburb = none ∧ p.city = none
        ∧ p.city_district = none ∧ p.island = none ∧ p.state = none
        ∧ p.state_district = none ∧ p.country_region = none ∧ p.country = none
        ∧ p.world_region = none ∧ p.category = none ∧ p.near = none
        ∧ p.toponym = none ∧ p.other = []) := by
  unfold ParsedAddress.is_empty
  simp [Bool.and_eq_true, Option.isNone_iff_eq_none, List.isEmpty_iff, and_assoc]

/-- Closed instance of the is_empty characterization, applied to the default
record. -/
theorem is_empty_iff_witness :
    ({} : ParsedAddress).house_number = none ∧ ({} : ParsedAddress).road = none
      ∧ ({} : ParsedAddress).unit = none ∧ ({} : ParsedAddress).level = none
      ∧ ({} : ParsedAddress).staircase = none ∧ ({} : ParsedAddress).entrance = none
      ∧ ({} : ParsedAddress).po_box = none ∧ ({} : ParsedAddress).postcode = none
      ∧ ({} : ParsedAddress).suburb = none ∧ ({} : ParsedAddress).city = none
      ∧ ({} : ParsedAddress).city_district = none ∧ ({} : ParsedAddress).island = none
      ∧ ({} : ParsedAddress).state = none ∧ ({} : ParsedAddress).state_district = none
      ∧ ({} : ParsedAddress).country_region = none ∧ ({} : ParsedAddress).country = none
      ∧ ({} : ParsedAddress).world_region = none ∧ ({} : ParsedAddress).category = none
      ∧ ({} : ParsedAddress).near = none ∧ ({} : ParsedAddress).toponym = none
      ∧ ({} : ParsedAddress).other = [] :=
  (is_empty_iff {}).mp (by decide)

namespace Postal

/-- Language codes (src/types.rs, enum Language): twenty-nine named variants
plus a Custom passthrough for unknown codes. -/
inductive Language where
  | English
  | Spanish
  | French
  | German
  | Italian
  | Portuguese
  | Russian
  | ChineseSimplified
  | ChineseTraditional
  | Japanese
  | Korean
  | Arabic
  | Hindi
  | Dutch
  | Polish
  | Swedish
  | Norwegian
  | Danish
  | Finnish
  | Czech
  | Hungarian
  | Romanian
  | Turkish
  | Greek
  | Hebrew
  | Thai
  | Vietnamese
  | Indonesian
  | Malay
  | Custom (code : String)
  deriving DecidableEq, Repr

/-- Language::to_string (src/types.rs lines 73 to 106): the ISO 639-1 code of
each named variant; Custom returns its stored code unchanged. -/
def Language.to_string (l : Language) : String :=
  match l with
  | Language.English => "en"
  | Language.Spanish => "es"
  | Language.French => "fr"
  | Language.German => "de"
  | Language.Italian => "it"
  | Language.Portuguese => "pt"
  | Language.Russian => "ru"
  | Language.ChineseSimplified => "zh"
  | Language.ChineseTraditional => "zh-TW"
  | Language.Japanese => "ja"
  | Language.Korean => "ko"
  | Language.Arabic => "ar"
  | Language.Hindi => "hi"
  | Language.Dutch => "nl"
  | Language.Polish => "pl"
  | Language.Swedish => "sv"
  | Language.Norwegian => "no"
  | Language.Danish => "da"
  | Language.Finnish => "fi"
  | Language.Czech => "cs"
  | Language.Hungarian => "hu"
  | Language.Romanian => "ro"
  | Language.Turkish => "tr"
  | Language.Greek => "el"
  | Language.Hebrew => "he"
  | Language.Thai => "th"
  | Language.Vietnamese => "vi"
  | Language.Indonesian => "id"
  | Language.Malay => "ms"
  | Language.Custom code => code

/-- Language::from_str (src/types.rs lines 109 to 143): case-sensitive match
on the known ISO codes, with every other string passing through to Custom. -/
def Language.from_str (code : String) : Language :=
  match code with
  | "en" => Language.English
  | "es" => Language.Spanish
  | "fr" => Language.French
  | "de" => Language.German
  | "it" => Language.Italian
  | "pt" => Language.Portuguese
  | "ru" => Language.Russian
  | "zh" => Language.ChineseSimplified
  | "zh-TW" => Language.ChineseTraditional
  | "ja" => Language.Japanese
  | "ko" => Language.Korean
  | "ar" => Language.Arabic
  | "hi" => Language.Hindi
  | "nl" => Language.Dutch
  | "pl" => Language.Polish
  | "sv" => Language.Swedish
  | "no" => Language.Norwegian
  | "da" => Language.Danish
  | "fi" => Language.Finnish
  | "cs" => Language.Czech
  | "hu" => Language.Hungarian
  | "ro" => Language.Romanian
  | "tr" => Language.Turkish
  | "el" => Language.Greek
  | "he" => Language.Hebrew
  | "th" => Language.Thai
  | "vi" => Language.Vietnamese
  | "id" => Language.Indonesian
  | "ms" => Language.Malay
  | _ => Language.Custom code

end Postal

/-- C9: language code conversion round-trips: from_str then to_string is the
identity on every string, and to_string then from_str is the identity on
every non-Custom variant. -/
theorem language_code_round_trip :
    (∀ s : String, (Postal.Language.from_str s).to_string = s) ∧
    (∀ l : Postal.Language, (∀ code, l ≠ Postal.Language.Custom code) →
      Postal.Language.from_str l.to_string = l) := by
  constructor
  · intro s
    unfold Postal.Language.from_str
    split <;> simp_all [Postal.Language.to_string]
  · intro l h
    cases l with
    | Custom code => exact absurd rfl (h code)
    | _ => rfl

/-- Closed instance of the round trip, applied to an unknown code and to the
English variant. -/
theorem language_code_round_trip_witness :
    (Postal.Language.from_str ("xx")).to_string = "xx" ∧
      Postal.Language.from_str Postal.Language.English.to_string = Postal.Language.English :=
  ⟨language_code_round_trip.1 ("xx"),
   language_code_round_trip.2 Postal.Language.English (fun code h => by cases h)⟩

/-- Decidable equality for Except results, used to evaluate runs on concrete
inputs. -/
def exceptDecEq {e a : Type} [DecidableEq e] [DecidableEq a] :
    DecidableEq (Except e a) := fun x y =>
  match x, y with
  | Except.ok u, Except.ok v =>
    if h : u = v then Decidable.isTrue (congrArg Except.ok h)
    else Decidable.isFalse (fun hh => h (by injection hh))
  | Except.ok _, Except.error _ => Decidable.isFalse (fun hh => by injection hh)
  | Except.error _, Except.ok _ => Decidable.isFalse (fun hh => by injection hh)
  | Except.error u, Except.error v =>
    if h : u = v then Decidable.isTrue (congrArg Except.error h)
    else Decidable.isFalse (fun hh => h (by injection hh))

instance {e a : Type} [DecidableEq e] [DecidableEq a] : DecidableEq (Except e a) :=
  exceptDecEq

/-- The native libpostal calls the adapter can make, recorded as events so
call-counting properties can be stated.  The option-defaulting getter calls
carry no observable effect and are not recorded. -/
inductive NativeEvent where
  | setupDatadir
  | setupParserDatadir
  | setupClassifierDatadir
  | setupDefault
  | setupParserDefault
  | setupClassifierDefault
  | parseCall
  | destroyParse
  | expandCall
  | destroyExpand
  deriving DecidableEq, Repr

/-- True for the six setup events, false for parse, expand and destroy
events. -/
def NativeEvent.isSetup (e : NativeEvent) : Bool :=
  match e with
  | NativeEvent.parseCall => false
  | NativeEvent.destroyParse => false
  | NativeEvent.expandCall => false
  | NativeEvent.destroyExpand => false
  | _ => true

/-- Oracle for the opaque native library and for the environment the
initialization gate consults: whether DataManager::is_data_available holds,
whether the resolved data directory path contains an embedded null byte (the
CString conversion at src/ffi.rs line 118), the boolean results of the six
native setup entry points, and the results the native parse and expand
capabilities would return.  A parse entry is a pair of the component pointer
and the label pointer, none standing for a null pointer; lossy UTF-8
decoding is modelled as the identity on the already-decoded strings. -/
structure NativeEnv where
  dataAvailable : Bool
  dataDirHasNull : Bool
  setupDatadirOk : Bool
  setupParserDatadirOk : Bool
  setupClassifierDatadirOk : Bool
  setupDefaultOk : Bool
  setupParserDefaultOk : Bool
  setupClassifierDefaultOk : Bool
  parseResult : Option (List (Option String × Option String))
  expandResult : Option (List (Option String))
  deriving DecidableEq, Repr

/-- The process-wide initialization state (src/ffi.rs lines 81 to 84): the
Once flag, the INITIALIZED boolean, and the bounded error-message buffer
(empty string standing for length zero). -/
structure InitState where
  onceDone : Bool
  initialized : Bool
  errMsg : String
  deriving DecidableEq, Repr

/-- The state at process start: Once not yet run, not initialized, empty
error buffer. -/
def initState0 : InitState := { onceDone := false, initialized := false, errMsg := "" }

/-- CString::new fails exactly when the string contains an embedded null
byte. -/
def containsNull (s : String) : Bool :=
  s.data.any (fun c => c == Char.ofNat 0)

/-- The three data-directory setup calls made when data is available
(src/ffi.rs lines 121 to 125). -/
def datadirSetupSeq : List NativeEvent :=
  [NativeEvent.setupDatadir, NativeEvent.setupParserDatadir,
   NativeEvent.setupClassifierDatadir]

/-- The three default setup calls made when data is unavailable (src/ffi.rs
lines 142 to 144). -/
def defaultSetupSeq : List NativeEvent :=
  [NativeEvent.setupDefault, NativeEvent.setupParserDefault,
   NativeEvent.setupClassifierDefault]

/-- The closure passed to INIT.call_once in ffi::initialize (src/ffi.rs lines
113 to 169): with data available and a valid directory path it runs the three
datadir setup calls and requires all three to succeed; with an invalid path it
records the invalid-path message and makes no native call; without data it
runs the three default setup calls.  On failure the error buffer is written
only if still empty, and the message distinguishes the data-missing case.
Returns the state after the closure together with the native calls made. -/
def runOnceBody (env : NativeEnv) : InitState × List NativeEvent :=
  if env.dataAvailable then
    if env.dataDirHasNull then
      ({ onceDone := true, initialized := false,
         errMsg := ("Invalid data directory path").take 255 }, [])
    else
      if env.setupDatadirOk && env.setupParserDatadirOk && env.setupClassifierDatadirOk then
        ({ onceDone := true, initialized := true, errMsg := "" }, datadirSetupSeq)
      else
        ({ onceDone := true, initialized := false,
           errMsg := ("libpostal initialization failed").take 255 }, datadirSetupSeq)
  else
    if env.setupDefaultOk && env.setupParserDefaultOk && env.setupClassifierDefaultOk then
      ({ onceDone := true, initialized := true, errMsg := "" }, defaultSetupSeq)
    else
      ({ onceDone := true, initialized := false,
         errMsg := ("libpostal initialization failed - data files not found. Run data download first.").take 255 },
       defaultSetupSeq)

/-- The outcome every caller derives after call_once returns (src/ffi.rs
lines 171 to 183): Ok when INITIALIZED, otherwise an InitializationFailed
error built from the stored buffer, with a fixed fallback message when the
buffer is empty. -/
def InitState.outcome (s : InitState) : Except Error Unit :=
  if s.initialized then Except.ok ()
  else Except.error (Error.InitializationFailed
    (if s.errMsg.length > 0 then s.errMsg else ("libpostal initialization failed")))

/-- ffi::initialize (src/ffi.rs lines 112 to 184), modelled under the name
libInit: runs the call_once closure if it has not yet run (the Once
primitive serializes racing callers, so each call is one atomic step of this
model), then reads the stored outcome.  Returns the outcome, the state after
the call, and the native calls made by this invocation. -/
def libInit (env : NativeEnv) (s : InitState) :
    Except Error Unit × InitState × List NativeEvent :=
  if s.onceDone then (s.outcome, s, [])
  else ((runOnceBody env).1.outcome, (runOnceBody env).1, (runOnceBody env).2)

/-- A sequence of n calls to the initialization gate, threading the process
state and concatenating the native calls; returns the list of observed
outcomes, the final state, and all native calls made. -/
def runInitCalls (env : NativeEnv) : Nat → InitState →
    List (Except Error Unit) × InitState × List NativeEvent
  | 0, s => ([], s, [])
  | Nat.succ n, s =>
    ((libInit env s).1 :: (runInitCalls env n (libInit env s).2.1).1,
     (runInitCalls env n (libInit env s).2.1).2.1,
     (libInit env s).2.2 ++ (runInitCalls env n (libInit env s).2.1).2.2)

theorem runOnceBody_onceDone (env : NativeEnv) : (runOnceBody env).1.onceDone = true := by
  unfold runOnceBody
  split_ifs <;> rfl

theorem libInit_done (env : NativeEnv) (s : InitState) (h : s.onceDone = true) :
    libInit env s = (s.outcome, s, []) := by
  unfold libInit
  rw [h]
  rfl

theorem runInitCalls_done (env : NativeEnv) (n : Nat) (s : InitState)
    (h : s.onceDone = true) :
    runInitCalls env n s = (List.replicate n s.outcome, s, []) := by
  induction n with
  | zero => rfl
  | succ n ih => simp [runInitCalls, libInit_done env s h, ih, List.replicate_succ]

theorem runOnceBody_events (env : NativeEnv) (hdir : env.dataDirHasNull = false) :
    (runOnceBody env).2 = datadirSetupSeq ∨ (runOnceBody env).2 = defaultSetupSeq := by
  unfold runOnceBody
  rw [hdir]
  split_ifs <;> simp_all

/-- C2: the initialization gate executes the native setup sequence at most
once per process: starting from the uninitialized state, any positive number
of calls performs exactly one three-call native setup sequence (the datadir
sequence or the default sequence), every call observes the identical terminal
outcome of the single closure run, and any further calls after the terminal
state observe that same stored outcome while making no native call at all.
The hypothesis on the resolved directory path excludes only the defensive
branch for a path that cannot form a C string, in which the closure makes no
native call. -/
theorem initialize_once_terminal (env : NativeEnv) (n : Nat) (h : 1 ≤ n)
    (hdir : env.dataDirHasNull = false) :
    ((runInitCalls env n initState0).2.2 = datadirSetupSeq
      ∨ (runInitCalls env n initState0).2.2 = defaultSetupSeq)
    ∧ (runInitCalls env n initState0).1 =
        List.replicate n (runOnceBody env).1.outcome
    ∧ (∀ m : Nat,
        (runInitCalls env m (runInitCalls env n initState0).2.1).2.2 = []
        ∧ (runInitCalls env m (runInitCalls env n initState0).2.1).1 =
            List.replicate m (runOnceBody env).1.outcome) := by
  obtain ⟨k, rfl⟩ : ∃ k, n = k + 1 := ⟨n - 1, (Nat.sub_add_cancel h).symm⟩
  have hb := runOnceBody_onceDone env
  have h1 : libInit env initState0 =
      ((runOnceBody env).1.outcome, (runOnceBody env).1, (runOnceBody env).2) := rfl
  have hstep : runInitCalls env (k + 1) initState0 =
      (List.replicate (k + 1) (runOnceBody env).1.outcome,
       (runOnceBody env).1, (runOnceBody env).2) := by
    simp [runInitCalls, h1, runInitCalls_done env k (runOnceBody env).1 hb,
      List.replicate_succ]
  rw [hstep]
  refine ⟨runOnceBody_events env hdir, rfl, ?_⟩
  intro m
  rw [runInitCalls_done env m (runOnceBody env).1 hb]
  exact ⟨rfl, rfl⟩

/-- Concrete environment in which no data is available and the default native
setup calls fail, the common case the spec describes for the fallback
path. -/
def envNoData : NativeEnv :=
  { dataAvailable := false, dataDirHasNull := false,
    setupDatadirOk := false, setupParserDatadirOk := false,
    setupClassifierDatadirOk := false,
    setupDefaultOk := false, setupParserDefaultOk := false,
    setupClassifierDefaultOk := false,
    parseResult := none, expandResult := none }

/-- Closed instance of the initialization gate theorem: two calls in the
no-data environment, followed by one further call, applied at concrete
inputs. -/
theorem initialize_once_terminal_witness :
    (runInitCalls envNoData 2 initState0).1 =
      List.replicate 2 (runOnceBody envNoData).1.outcome
    ∧ (runInitCalls envNoData 1 (runInitCalls envNoData 2 initState0).2.1).2.2 = [] :=
  ⟨(initialize_once_terminal envNoData 2 (by decide) (by decide)).2.1,
   ((initialize_once_terminal envNoData 2 (by decide) (by decide)).2.2 1).1⟩

/-- Parsing options (src/ffi.rs, struct ParseOptions): optional language and
country hints. -/
structure ParseOptions where
  language : Option String
  country : Option String
  deriving DecidableEq, Repr

/-- Normalization options (src/ffi.rs, struct NormalizeOptions): a languages
list that the conversion currently ignores, and primitive flags copied
verbatim into the native options struct. -/
structure NormalizeOptions where
  languages : List String
  address_components : Nat
  latin_ascii : Bool
  transliterate : Bool
  strip_accents : Bool
  decompose : Bool
  lowercase : Bool
  trim_string : Bool
  replace_word_hyphens : Bool
  delete_word_hyphens : Bool
  replace_numeric_hyphens : Bool
  delete_numeric_hyphens : Bool
  split_alpha_from_numeric : Bool
  delete_final_periods : Bool
  delete_acronym_periods : Bool
  drop_english_possessives : Bool
  delete_apostrophes : Bool
  expand_numex : Bool
  roman_numerals : Bool
  deriving DecidableEq, Repr

/-- convert_parse_options (src/ffi.rs lines 453 to 477), restricted to its
observable failure behavior: the language hint and then the country hint must
each form a valid C string; the successful case only fills native pointers
that stay alive for the call. -/
def convert_parse_options (options : ParseOptions) : Except Error Unit :=
  match options.language with
  | some language =>
    if containsNull language then
      Except.error (Error.FfiError ("Invalid language string"))
    else
      match options.country with
      | some country =>
        if containsNull country then
          Except.error (Error.FfiError ("Invalid country string"))
        else Except.ok ()
      | none => Except.ok ()
  | none =>
    match options.country with
    | some country =>
      if containsNull country then
        Except.error (Error.FfiError ("Invalid country string"))
      else Except.ok ()
    | none => Except.ok ()

/-- convert_normalize_options (src/ffi.rs lines 503 to 532): copies primitive
flags only and does not convert the languages list, so it cannot fail. -/
def convert_normalize_options (_options : NormalizeOptions) : Except Error Unit :=
  Except.ok ()

/-- ffi::parse_address (src/ffi.rs lines 269 to 323): runs the
initialization gate first and propagates its error; converts the address to a
C string, failing with the FfiError boundary tag on an embedded null byte;
converts the options, propagating their null-byte failures; invokes the
native parse capability, failing with ParseError on a null result; otherwise
collects the entries whose component and label pointers are both non-null
into owned components and destroys the native response exactly once. -/
def parse_address (env : NativeEnv) (s : InitState) (address : String)
    (options : Option ParseOptions) :
    Except Error (List AddressComponent) × InitState × List NativeEvent :=
  match libInit env s with
  | (Except.error e, s2, evs) => (Except.error e, s2, evs)
  | (Except.ok _, s2, evs) =>
    if containsNull address then
      (Except.error (Error.FfiError ("Invalid address string")), s2, evs)
    else
      match (match options with
             | some opts => convert_parse_options opts
             | none => Except.ok ()) with
      | Except.error e => (Except.error e, s2, evs)
      | Except.ok _ =>
        match env.parseResult with
        | none =>
          (Except.error (Error.ParseError ("libpostal_parse_address returned null")),
           s2, evs ++ [NativeEvent.parseCall])
        | some entries =>
          (Except.ok (entries.filterMap (fun entry =>
             match entry with
             | (some componentValue, some labelValue) =>
               some { label := labelValue, value := componentValue }
             | _ => none)),
           s2, evs ++ [NativeEvent.parseCall, NativeEvent.destroyParse])

/-- ffi::normalize_string (src/ffi.rs lines 377 to 421): runs the
initialization gate first and propagates its error; converts the input to a C
string, failing with the FfiError boundary tag on an embedded null byte;
converts the options (which cannot fail); invokes the native expand
capability, treating a null result as the valid empty expansion list;
otherwise collects the non-null entries and destroys the native array exactly
once. -/
def normalize_string (env : NativeEnv) (s : InitState) (input : String)
    (options : Option NormalizeOptions) :
    Except Error (List String) × InitState × List NativeEvent :=
  match libInit env s with
  | (Except.error e, s2, evs) => (Except.error e, s2, evs)
  | (Except.ok _, s2, evs) =>
    if containsNull input then
      (Except.error (Error.FfiError ("Invalid input string")), s2, evs)
    else
      match (match options with
             | some opts => convert_normalize_options opts
             | none => Except.ok ()) with
      | Except.error e => (Except.error e, s2, evs)
      | Except.ok _ =>
        match env.expandResult with
        | none =>
          (Except.ok [], s2, evs ++ [NativeEvent.expandCall])
        | some expansions =>
          (Except.ok (expansions.filterMap id), s2,
           evs ++ [NativeEvent.expandCall, NativeEvent.destroyExpand])

theorem libInit_events_setup (env : NativeEnv) (s : InitState) :
    ∀ e ∈ (libInit env s).2.2, e.isSetup = true := by
  intro e he
  unfold libInit at he
  split at he
  · simp at he
  · unfold runOnceBody at he
    split_ifs at he <;> simp_all [datadirSetupSeq, defaultSetupSeq] <;>
      rcases he with h | h | h <;> subst h <;> rfl

/-- Concrete environment in which data is available and the three datadir
setup calls succeed, while the native parse and expand capabilities return
null results. -/
def envDataOk : NativeEnv :=
  { dataAvailable := true, dataDirHasNull := false,
    setupDatadirOk := true, setupParserDatadirOk := true,
    setupClassifierDatadirOk := true,
    setupDefaultOk := false, setupParserDefaultOk := false,
    setupClassifierDefaultOk := false,
    parseResult := none, expandResult := none }

theorem parse_address_null_events (env : NativeEnv) (s : InitState) (address : String)
    (options : Option ParseOptions) (ha : containsNull address = true) :
    (parse_address env s address options).2.2 = (libInit env s).2.2 := by
  unfold parse_address
  rcases h : libInit env s with ⟨r, s2, evs⟩
  cases r <;> simp [ha]

theorem parse_address_null_result (env : NativeEnv) (s : InitState) (address : String)
    (options : Option ParseOptions) (ha : containsNull address = true)
    (hok : (libInit env s).1 = Except.ok ()) :
    (parse_address env s address options).1 =
      Except.error (Error.FfiError ("Invalid address string")) := by
  unfold parse_address
  rcases h : libInit env s with ⟨r, s2, evs⟩
  rw [h] at hok
  simp only at hok
  subst hok
  simp [ha]

theorem normalize_string_null_events (env : NativeEnv) (s : InitState) (input : String)
    (options : Option NormalizeOptions) (hi : containsNull input = true) :
    (normalize_string env s input options).2.2 = (libInit env s).2.2 := by
  unfold normalize_string
  rcases h : libInit env s with ⟨r, s2, evs⟩
  cases r <;> simp [hi]

theorem normalize_string_null_result (env : NativeEnv) (s : InitState) (input : String)
    (options : Option NormalizeOptions) (hi : containsNull input = true)
    (hok : (libInit env s).1 = Except.ok ()) :
    (normalize_string env s input options).1 =
      Except.error (Error.FfiError ("Invalid input string")) := by
  unfold normalize_string
  rcases h : libInit env s with ⟨r, s2, evs⟩
  rw [h] at hok
  simp only at hok
  subst hok
  simp [hi]

/-- C1 counterexample: from the uninitialized state, with data unavailable
and the default native setup rejected, parsing a string with an embedded null
byte performs the full three-call native setup sequence and returns an
InitializationFailed error rather than the boundary tag, refuting both the
claimed error tag and the claim that no native call is performed. -/
theorem null_byte_runs_setup_cex :
    parse_address envNoData initState0 ("a\x00b") none =
      (Except.error (Error.InitializationFailed
        ("libpostal initialization failed - data files not found. Run data download first.")),
       { onceDone := true, initialized := false,
         errMsg := "libpostal initialization failed - data files not found. Run data download first." },
       defaultSetupSeq) := by
  decide

/-- C1 amended: for every input containing an embedded null byte, parse and
normalize perform no native parse, expand or destroy call (every native event
of such a run is a setup event of the initialization gate, which runs first),
and whenever the initialization gate reports success the call fails with the
FfiError boundary tag; when the gate fails, its InitializationFailed error is
returned instead. -/
theorem null_byte_boundary_amended (env : NativeEnv) (s : InitState)
    (address : String) (options : Option ParseOptions)
    (input : String) (nopts : Option NormalizeOptions)
    (ha : containsNull address = true) (hi : containsNull input = true) :
    (∀ e ∈ (parse_address env s address options).2.2, e.isSetup = true)
    ∧ (∀ e ∈ (normalize_string env s input nopts).2.2, e.isSetup = true)
    ∧ ((libInit env s).1 = Except.ok () →
        (parse_address env s address options).1 =
          Except.error (Error.FfiError ("Invalid address string"))
        ∧ (normalize_string env s input nopts).1 =
          Except.error (Error.FfiError ("Invalid input string"))) := by
  refine ⟨?_, ?_, ?_⟩
  · rw [parse_address_null_events env s address options ha]
    exact libInit_events_setup env s
  · rw [normalize_string_null_events env s input nopts hi]
    exact libInit_events_setup env s
  · intro hok
    exact ⟨parse_address_null_result env s address options ha hok,
           normalize_string_null_result env s input nopts hi hok⟩

/-- Closed instance of the amended boundary property, in the environment
where initialization succeeds. -/
theorem null_byte_boundary_amended_witness :
    (parse_address envDataOk initState0 ("a\x00b") none).1 =
      Except.error (Error.FfiError ("Invalid address string"))
    ∧ (normalize_string envDataOk initState0 ("c\x00") none).1 =
      Except.error (Error.FfiError ("Invalid input string")) :=
  (null_byte_boundary_amended envDataOk initState0 ("a\x00b") none ("c\x00") none
    (by decide) (by decide)).2.2 (by decide)

/-- C4: when the native expand capability returns a null result, and the call
reaches it (initialization succeeded and the input forms a valid C string),
normalize_string returns Ok with the empty expansion list, never an error. -/
theorem expand_null_ok_empty (env : NativeEnv) (s : InitState) (input : String)
    (options : Option NormalizeOptions)
    (hnull : env.expandResult = none)
    (hin : containsNull input = false)
    (hok : (libInit env s).1 = Except.ok ()) :
    (normalize_string env s input options).1 = Except.ok [] := by
  unfold normalize_string
  rcases h : libInit env s with ⟨r, s2, evs⟩
  rw [h] at hok
  simp only at hok
  subst hok
  cases options <;> simp [hin, hnull, convert_normalize_options]

/-- Closed instance of the null-expand property at a concrete input. -/
theorem expand_null_ok_empty_witness :
    (normalize_string envDataOk initState0 ("St") none).1 = Except.ok [] :=
  expand_null_ok_empty envDataOk initState0 ("St") none rfl (by decide) (by decide)

/-- C5: when the native parse capability returns a null result, and the call
reaches it (initialization succeeded, the address forms a valid C string and
the option hints convert), parse_address fails with the ParseError tag. -/
theorem parse_null_is_parse_error (env : NativeEnv) (s : InitState) (address : String)
    (options : Option ParseOptions)
    (hnull : env.parseResult = none)
    (hin : containsNull address = false)
    (hopts : (match options with
              | some opts => convert_parse_options opts
              | none => Except.ok ()) = Except.ok ())
    (hok : (libInit env s).1 = Except.ok ()) :
    (parse_address env s address options).1 =
      Except.error (Error.ParseError ("libpostal_parse_address returned null")) := by
  unfold parse_address
  rcases h : libInit env s with ⟨r, s2, evs⟩
  rw [h] at hok
  simp only at hok
  subst hok
  simp [hin, hopts, hnull]

/-- Closed instance of the null-parse property at a concrete input. -/
theorem parse_null_is_parse_error_witness :
    (parse_address envDataOk initState0 ("123 Main St") none).1 =
      Except.error (Error.ParseError ("libpostal_parse_address returned null")) :=
  parse_null_is_parse_error envDataOk initState0 ("123 Main St") none rfl
    (by decide) (by decide) (by decide)

/-- Filesystem model for the data directory: whether the directory itself
exists, and for each path relative to it the file content (none for an absent
file).  The metadata size of a present file is its content length, and no
I/O error occurs mid-check, matching the side condition of the claims on
DataManager. -/
structure FsState where
  dirExists : Bool
  files : String → Option String

/-- The fixed list of required data files (src/data.rs lines 54 to 63 and
119 to 128, identical lists). -/
def requiredFiles : List String :=
  ["address_expansions/address_dictionary.dat",
   "numex/numex.dat",
   "transliteration/transliteration.dat",
   "address_parser/address_parser_crf.dat",
   "address_parser/address_parser_phrases.dat",
   "address_parser/address_parser_postal_codes.dat",
   "address_parser/address_parser_vocab.trie",
   "language_classifier/language_classifier.dat"]

/-- DataManager::is_data_available (src/data.rs lines 48 to 72): the data
directory exists and every required file exists.  The source checks only
existence, not size. -/
def is_data_available (fs : FsState) : Bool :=
  fs.dirExists && requiredFiles.all (fun f => (fs.files f).isSome)

/-- The per-file loop of DataManager::verify_data (src/data.rs lines 130 to
147): the first absent file yields the missing-file error, the first present
file of size zero yields the empty-file error. -/
def verifyFiles (fs : FsState) : List String → Except Error Unit
  | [] => Except.ok ()
  | f :: rest =>
    match fs.files f with
    | none => Except.error (Error.DataError ("Missing data file: " ++ f))
    | some content =>
      if content.length = 0 then
        Except.error (Error.DataError ("Empty data file: " ++ f))
      else verifyFiles fs rest

/-- DataManager::verify_data (src/data.rs lines 112 to 150): fails with the
not-found error when is_data_available is false, then checks each required
file for existence and non-zero size. -/
def verify_data (fs : FsState) : Except Error Unit :=
  if is_data_available fs then verifyFiles fs requiredFiles
  else Except.error (Error.DataError ("Data files not found"))

/-- Data directory state in which every required file exists but the numex
file is empty. -/
def fsEmptyNumex : FsState :=
  { dirExists := true,
    files := fun f =>
      if f = "numex/numex.dat" then some ("")
      else if requiredFiles.contains f then some ("x") else none }

/-- Data directory state in which every required file exists with non-empty
content. -/
def fsAllPresent : FsState :=
  { dirExists := true,
    files := fun f => if requiredFiles.contains f then some ("x") else none }

/-- C3 counterexample: a state in which every required file exists but one is
empty makes is_data_available true while verify_data returns the empty-file
error, refuting the claimed equivalence. -/
theorem available_but_empty_file_cex :
    is_data_available fsEmptyNumex = true
      ∧ verify_data fsEmptyNumex =
          Except.error (Error.DataError ("Empty data file: numex/numex.dat")) := by
  decide

theorem verifyFiles_ok_iff (fs : FsState) (l : List String) :
    verifyFiles fs l = Except.ok () ↔
      ∀ f ∈ l, fs.files f ≠ none ∧ fs.files f ≠ some "" := by
  induction l with
  | nil => simp [verifyFiles]
  | cons f rest ih =>
    simp only [verifyFiles]
    cases hf : fs.files f with
    | none => simp [hf]
    | some c =>
      by_cases hc : c.length = 0
      · have hce : c = "" := by
          cases c with
          | mk data => cases data <;> simp_all [String.length]
        simp [hf, hc, hce]
      · have hce : ¬ c = "" := by
          intro hh
          rw [hh] at hc
          exact hc rfl
        simp [hf, hc, ih, hce]

/-- C3 amended: is_data_available is true exactly when the directory exists
and every required file exists (size is not checked), while verify_data is Ok
exactly when is_data_available is true and every required file is non-empty;
hence verify_data Ok implies is_data_available, but a present-and-empty
required file makes is_data_available true while verify_data errors. -/
theorem available_verify_relation (fs : FsState) :
    (is_data_available fs = true ↔
      (fs.dirExists = true ∧ ∀ f ∈ requiredFiles, (fs.files f).isSome = true))
    ∧ (verify_data fs = Except.ok () ↔
        (is_data_available fs = true ∧
          ∀ f ∈ requiredFiles, fs.files f ≠ none ∧ fs.files f ≠ some "")) := by
  constructor
  · unfold is_data_available
    simp [List.all_eq_true]
  · unfold verify_data
    by_cases ha : is_data_available fs <;> simp [ha, verifyFiles_ok_iff]

/-- Closed instance of the availability and verification relation, applied to
the fully present state. -/
theorem available_verify_relation_witness :
    verify_data fsAllPresent = Except.ok () :=
  (available_verify_relation fsAllPresent).2.mpr (by decide)

/-- The three independently versioned data components the spec names
(spec.md section 3, DataComponent); the source defines no corresponding
type. -/
inductive DataComponent where
  | Base
  | Parser
  | LanguageClassifier
  deriving DecidableEq, Repr

/-- Modelled from the spec: the per-component version marker file at the data
directory root (spec.md sections 3 and 4.3).  The source code under src/
never defines, reads or writes any version file, so the names are chosen as
representatives; every theorem below is independent of this choice. -/
def versionFilePath (c : DataComponent) : String :=
  match c with
  | DataComponent.Base => "base_data_version"
  | DataComponent.Parser => "parser_data_version"
  | DataComponent.LanguageClassifier => "language_classifier_data_version"

/-- Modelled from the spec: the current target version string of each
component, compared by exact string equality against the version file
content (spec.md section 3).  The source records no target versions, so a
representative value is used. -/
def targetVersion (c : DataComponent) : String :=
  match c with
  | DataComponent.Base => "v1.0.0"
  | DataComponent.Parser => "v1.0.0"
  | DataComponent.LanguageClassifier => "v1.0.0"

/-- Externally observable actions of the acquisition path (src/data.rs):
data directory creation, a run of the bundled libpostal_data helper (which
performs the actual download), copies from system or project directories,
and direct HTTP GET requests from download_and_extract_data. -/
inductive AcqEvent where
  | createDir
  | helperRun
  | copySystem
  | copyProject
  | httpGet (url : String)
  deriving DecidableEq, Repr

/-- An acquisition event that reaches the network: a direct HTTP GET, or a
run of the download helper. -/
def AcqEvent.isNetworkRequest (e : AcqEvent) : Bool :=
  match e with
  | AcqEvent.httpGet _ => true
  | AcqEvent.helperRun => true
  | _ => false

/-- Oracle for the external world the acquisition path consults: whether the
bundled helper executable is found and whether its run succeeds, whether a
system or project data directory exists and validates and whether copying
from it succeeds, which urls answer an HTTP GET successfully, and the data
directory contents a successful install leaves behind. -/
structure AcqEnv where
  helperFound : Bool
  helperOk : Bool
  systemDirValid : Bool
  systemCopyOk : Bool
  projectDirValid : Bool
  projectCopyOk : Bool
  urlOk : String → Bool
  installedFs : FsState

/-- DataManager::download_with_libpostal_data (src/data.rs lines 268 to
296): fails without any action when the helper executable cannot be found,
otherwise runs it and succeeds exactly when the subprocess does. -/
def methodHelper (env : AcqEnv) : Bool × List AcqEvent :=
  if env.helperFound then (env.helperOk, [AcqEvent.helperRun]) else (false, [])

/-- DataManager::copy_from_system_libpostal (src/data.rs lines 466 to 485):
copies from the first system path that exists and validates; no network. -/
def methodSystemCopy (env : AcqEnv) : Bool × List AcqEvent :=
  if env.systemDirValid then (env.systemCopyOk, [AcqEvent.copySystem]) else (false, [])

/-- DataManager::copy_from_project_data (src/data.rs lines 489 to 506):
copies from the first project-local path that exists and validates; no
network. -/
def methodProjectCopy (env : AcqEnv) : Bool × List AcqEvent :=
  if env.projectDirValid then (env.projectCopyOk, [AcqEvent.copyProject]) else (false, [])

/-- The two official download urls tried in order (src/data.rs lines 378 to
381). -/
def officialDataUrls : List String :=
  ["https://github.com/openvenues/libpostal/releases/download/v1.1/libpostal_data_v1.tar.gz",
   "http://download.geonames.org/libpostal/libpostal_data_v1.tar.gz"]

/-- DataManager::download_from_official_sources (src/data.rs lines 372 to
400): issues a GET for each url in order, stopping at the first success;
every attempted url is one network request. -/
def tryOfficialUrls (env : AcqEnv) : List String → Bool × List AcqEvent
  | [] => (false, [])
  | url :: rest =>
    if env.urlOk url then (true, [AcqEvent.httpGet url])
    else
      ((tryOfficialUrls env rest).1,
       AcqEvent.httpGet url :: (tryOfficialUrls env rest).2)

/-- DataManager::download_real_data (src/data.rs lines 214 to 264): creates
the data directory, then tries in order the libpostal_data helper, a copy
from a system installation, a copy from a project data directory, and the
official download urls, succeeding at the first method that works and
returning the aggregated data error when every method fails (the long
remediation text of the source message is elided here).  A successful method
installs the external contents.  No version marker file is read or written
anywhere on this path. -/
def download_real_data (env : AcqEnv) (fs : FsState) :
    Except Error Unit × FsState × List AcqEvent :=
  if (methodHelper env).1 then
    (Except.ok (), env.installedFs, AcqEvent.createDir :: (methodHelper env).2)
  else if (methodSystemCopy env).1 then
    (Except.ok (), env.installedFs,
     AcqEvent.createDir :: (methodHelper env).2 ++ (methodSystemCopy env).2)
  else if (methodProjectCopy env).1 then
    (Except.ok (), env.installedFs,
     AcqEvent.createDir :: (methodHelper env).2 ++ (methodSystemCopy env).2
       ++ (methodProjectCopy env).2)
  else if (tryOfficialUrls env officialDataUrls).1 then
    (Except.ok (), env.installedFs,
     AcqEvent.createDir :: (methodHelper env).2 ++ (methodSystemCopy env).2
       ++ (methodProjectCopy env).2 ++ (tryOfficialUrls env officialDataUrls).2)
  else
    (Except.error (Error.DataError ("Could not find or download libpostal data files.")),
     { fs with dirExists := true },
     AcqEvent.createDir :: (methodHelper env).2 ++ (methodSystemCopy env).2
       ++ (methodProjectCopy env).2 ++ (tryOfficialUrls env officialDataUrls).2)

/-- Configuration snapshot for data management (src/data.rs, struct
DataConfig); the data directory path is carried by FsState. -/
structure DataConfig where
  auto_download : Bool
  verify_integrity : Bool
  base_url : String
  timeout_seconds : Nat

/-- DataManager::ensure_data (src/data.rs lines 193 to 210): when data is
unavailable, runs acquisition if auto_download is enabled and otherwise fails
with the disabled-policy data error; afterwards runs verify_data when
verify_integrity is enabled. -/
def ensure_data (env : AcqEnv) (cfg : DataConfig) (fs : FsState) :
    Except Error Unit × FsState × List AcqEvent :=
  if is_data_available fs then
    (if cfg.verify_integrity then verify_data fs else Except.ok (), fs, [])
  else
    if cfg.auto_download then
      match download_real_data env fs with
      | (Except.error e, fs2, evs) => (Except.error e, fs2, evs)
      | (Except.ok _, fs2, evs) =>
        (if cfg.verify_integrity then verify_data fs2 else Except.ok (), fs2, evs)
    else
      (Except.error (Error.DataError
        ("Data files not available and auto_download is disabled")), fs, [])

/-- Data directory state whose three spec-modelled version marker files all
record the target versions while every required data file is absent. -/
def fsVersionOnly : FsState :=
  { dirExists := true,
    files := fun f =>
      if f = versionFilePath DataComponent.Base then
        some (targetVersion DataComponent.Base)
      else if f = versionFilePath DataComponent.Parser then
        some (targetVersion DataComponent.Parser)
      else if f = versionFilePath DataComponent.LanguageClassifier then
        some (targetVersion DataComponent.LanguageClassifier)
      else none }

/-- External world in which every acquisition source fails: the helper
executable is absent, no system or project directory validates, and both
official urls fail. -/
def envAcqFail : AcqEnv :=
  { helperFound := false, helperOk := false,
    systemDirValid := false, systemCopyOk := false,
    projectDirValid := false, projectCopyOk := false,
    urlOk := fun _ => false,
    installedFs := { dirExists := true, files := fun _ => none } }

/-- The default data-management policy (src/data.rs, impl Default for
DataConfig): auto download on, integrity verification on. -/
def cfgDefaultPolicy : DataConfig :=
  { auto_download := true, verify_integrity := true,
    base_url := "https://github.com/openvenues/libpostal/releases/download/v1.1/",
    timeout_seconds := 300 }

/-- C7 counterexample: in a state whose version marker files all record the
target versions but whose data files are absent, both the first and the
second acquisition run issue two network requests each, because the code
consults only is_data_available and never any version file; the spec-claimed
zero-network no-op does not occur. -/
theorem version_file_ignored_cex :
    (fsVersionOnly.files (versionFilePath DataComponent.Base)
        = some (targetVersion DataComponent.Base)
      ∧ fsVersionOnly.files (versionFilePath DataComponent.Parser)
        = some (targetVersion DataComponent.Parser)
      ∧ fsVersionOnly.files (versionFilePath DataComponent.LanguageClassifier)
        = some (targetVersion DataComponent.LanguageClassifier))
    ∧ ((ensure_data envAcqFail cfgDefaultPolicy fsVersionOnly).2.2.countP
        (fun e => e.isNetworkRequest) = 2)
    ∧ ((ensure_data envAcqFail cfgDefaultPolicy
          (ensure_data envAcqFail cfgDefaultPolicy fsVersionOnly).2.1).2.2.countP
        (fun e => e.isNetworkRequest) = 2) := by
  decide

/-- C7 amended: the code keeps no per-component version files; acquisition
idempotency holds at whole-dataset granularity instead: whenever
is_data_available is true, ensure_data performs no acquisition action at all
(in particular zero network requests), for every environment and policy. -/
theorem ensure_data_idempotent_when_available (env : AcqEnv) (cfg : DataConfig)
    (fs : FsState) (h : is_data_available fs = true) :
    (ensure_data env cfg fs).2.2 = [] := by
  unfold ensure_data
  rw [h]
  rfl

/-- Closed instance of the availability-gated idempotency, applied to the
fully present state. -/
theorem ensure_data_idempotent_when_available_witness :
    (ensure_data envAcqFail cfgDefaultPolicy fsAllPresent).2.2 = [] :=
  ensure_data_idempotent_when_available envAcqFail cfgDefaultPolicy fsAllPresent
    (by decide)
